import Mathlib

set_option maxRecDepth 16384

/-!
Verification development for the x402-sol-member repository.

The repository implements the x402 micropayment protocol over Solana:
a Firebase cloud function (`src/functions/index.js`) decodes an
`X-PAYMENT` header, checks membership of the fee payer by SPL token
balance, validates the attached transfer-checked instruction against the
published payment requirement, and broadcasts the transaction if the
payer is not a member.  A second revision of the same server function and
the client wallet code live in `src/unnamed/part_003`.

Modelling conventions:
* JavaScript strings that travel through the codec (header value, JSON
  text, base64 text) are modelled as `List Nat` of byte values; pubkeys,
  config values and error messages are Lean `String`s.
* The JSON grammar implemented here is the fragment the header codec
  exercises: double-quoted strings with `\"` and `\\` escapes, natural
  number literals, and objects nested to the header payload's depth,
  with no insignificant whitespace (the encoder `buildX402Header` emits
  none).  `Buffer.from(_, "base64")` never throws in Node, so base64
  decoding is total and lenient (non-alphabet bytes are skipped), and a
  malformed header can only fail at the JSON stage — exactly as in the
  source, where the `try`/`catch` around `JSON.parse` produces the
  `Failed to decode x-payment header` error.
* External services (the Solana RPC connection) are an oracle `Chain`;
  transaction deserialization (`Transaction.from`) is an oracle
  parameter `parseTx`.  Network side effects are tracked as an explicit
  `Event` trace: connection creation, the token-account query, the call
  into `verifyTransaction`, and the `sendRawTransaction` broadcast.
* `tx.serialize()` internally re-verifies signatures cryptographically;
  that cryptographic step is outside a shallow embedding and serialize
  is modelled as returning the stored wire bytes.
-/

namespace X402

/-- Byte values (char codes) of an ASCII string literal. -/
def ascii (s : String) : List Nat := s.data.map (fun c => c.toNat)

/-! ### Base64 codec (Node `Buffer` semantics)

`Buffer.from(bytes).toString("base64")` is standard RFC 4648 encoding
with `=` padding.  `Buffer.from(str, "base64")` is lenient: bytes that
are not in the alphabet (including `=`) are ignored, and a trailing
group of 2 or 3 sextets contributes 1 or 2 bytes while a single
trailing sextet is dropped. -/

/-- Map a sextet (0..63) to its base64 alphabet byte. -/
def b64c (s : Nat) : Nat :=
  if s < 26 then 65 + s
  else if s < 52 then 97 + (s - 26)
  else if s < 62 then 48 + (s - 52)
  else if s = 62 then 43
  else 47

/-- Map a byte to the sextet it denotes, `none` for non-alphabet bytes. -/
def b64d (b : Nat) : Option Nat :=
  if 65 ≤ b ∧ b ≤ 90 then some (b - 65)
  else if 97 ≤ b ∧ b ≤ 122 then some (b - 97 + 26)
  else if 48 ≤ b ∧ b ≤ 57 then some (b - 48 + 52)
  else if b = 43 then some 62
  else if b = 47 then some 63
  else none

/-- Base64-encode a byte list, three bytes at a time, with padding. -/
def b64encode : List Nat → List Nat
  | [] => []
  | [b0] => [b64c (b0 / 4), b64c (b0 % 4 * 16), 61, 61]
  | [b0, b1] => [b64c (b0 / 4), b64c (b0 % 4 * 16 + b1 / 16), b64c (b1 % 16 * 4), 61]
  | b0 :: b1 :: b2 :: rest =>
      b64c (b0 / 4) :: b64c (b0 % 4 * 16 + b1 / 16) :: b64c (b1 % 16 * 4 + b2 / 64) ::
        b64c (b2 % 64) :: b64encode rest

/-- Reassemble bytes from a sextet stream, four sextets at a time. -/
def deSex : List Nat → List Nat
  | s0 :: s1 :: s2 :: s3 :: rest =>
      (s0 * 4 + s1 / 16) :: (s1 % 16 * 16 + s2 / 4) :: (s2 % 4 * 64 + s3) :: deSex rest
  | [s0, s1] => [s0 * 4 + s1 / 16]
  | [s0, s1, s2] => [s0 * 4 + s1 / 16, s1 % 16 * 16 + s2 / 4]
  | _ => []

/-- Lenient base64 decode: drop non-alphabet bytes, then regroup. -/
def b64decode (s : List Nat) : List Nat := deSex (s.filterMap b64d)

/-! ### JSON fragment -/

/-- JSON values produced by `JSON.parse` on the header codec's grammar. -/
inductive JVal where
  | jstr : List Nat → JVal
  | jnum : Nat → JVal
  | jobj : List (List Nat × JVal) → JVal

/-- Parse the body of a double-quoted string (opening quote consumed),
returning the unescaped content and the rest of the input. -/
def parseStr : List Nat → Option (List Nat × List Nat)
  | [] => none
  | b :: rest =>
    if b = 34 then some ([], rest)
    else if b = 92 then
      match rest with
      | [] => none
      | c :: rest2 =>
        if c = 34 ∨ c = 92 then (parseStr rest2).map (fun p => (c :: p.1, p.2))
        else none
    else (parseStr rest).map (fun p => (b :: p.1, p.2))

/-- Decide whether a byte is an ASCII digit. -/
def isDigitB (b : Nat) : Bool := decide (48 ≤ b ∧ b ≤ 57)

/-- Parse a natural number literal. -/
def parseNum (bs : List Nat) : Option (Nat × List Nat) :=
  let ds := bs.takeWhile isDigitB
  if ds = [] then none
  else some (ds.foldl (fun acc b => 10 * acc + (b - 48)) 0, bs.dropWhile isDigitB)

/-- Parse an atomic JSON value: a string (opening quote) or a number. -/
def parseAtom : List Nat → Option (JVal × List Nat)
  | [] => none
  | b :: rest =>
    if b = 34 then (parseStr rest).map (fun p => (JVal.jstr p.1, p.2))
    else (parseNum (b :: rest)).map (fun p => (JVal.jnum p.1, p.2))

/-- Parse a non-empty field list `"k":v(,"k":v)*` up to the closing
brace, with values parsed by `pv`; the fuel bounds the number of
fields. -/
def parseFieldsWith (pv : List Nat → Option (JVal × List Nat)) :
    Nat → List Nat → Option (List (List Nat × JVal) × List Nat)
  | 0, _ => none
  | _ + 1, [] => none
  | fuel + 1, b :: rest =>
    if b = 34 then
      match parseStr rest with
      | none => none
      | some (key, rest1) =>
        match rest1 with
        | [] => none
        | b2 :: rest2 =>
          if b2 = 58 then
            match pv rest2 with
            | none => none
            | some (v, rest3) =>
              match rest3 with
              | [] => none
              | b3 :: rest4 =>
                if b3 = 44 then
                  (parseFieldsWith pv fuel rest4).map (fun p => ((key, v) :: p.1, p.2))
                else if b3 = 125 then some ([(key, v)], rest4)
                else none
          else none
    else none

/-- Parse an object whose field values are parsed by `pv`. -/
def parseObjWith (pv : List Nat → Option (JVal × List Nat)) (fuel : Nat) :
    List Nat → Option (JVal × List Nat)
  | [] => none
  | b :: rest =>
    if b = 123 then
      if rest.head? = some 125 then some (JVal.jobj [], rest.tail)
      else (parseFieldsWith pv fuel rest).map (fun p => (JVal.jobj p.1, p.2))
    else none

/-- Parse a value of nesting depth at most 1: atom or object of atoms. -/
def parseVal1 (bs : List Nat) : Option (JVal × List Nat) :=
  if bs.head? = some 123 then parseObjWith parseAtom (bs.length + 1) bs
  else parseAtom bs

/-- Parse a value of nesting depth at most 2. -/
def parseVal2 (bs : List Nat) : Option (JVal × List Nat) :=
  if bs.head? = some 123 then parseObjWith parseVal1 (bs.length + 1) bs
  else parseAtom bs

/-- `JSON.parse` on the codec's grammar: a full parse of the input. -/
def jsonParse (bs : List Nat) : Option JVal :=
  match parseVal2 bs with
  | some (v, []) => some v
  | _ => none

/-- Property lookup, as JavaScript member access on a parsed value:
`undefined` (`none`) when the value is not an object or lacks the key.
`JSON.parse` keeps the last duplicate key; the grammar here is used on
inputs with distinct keys, where first and last lookup agree. -/
def getField : JVal → String → Option JVal
  | JVal.jobj fs, k => (fs.find? (fun p => p.1 == ascii k)).map (fun p => p.2)
  | _, _ => none

/-- JavaScript truthiness of a parsed JSON value. -/
def truthy : JVal → Bool
  | JVal.jstr s => !s.isEmpty
  | JVal.jnum n => n != 0
  | JVal.jobj _ => true

/-! ### Client header building (`buildX402Header`, src/unnamed/part_003) -/

/-- JSON string escaping for the byte values the codec can produce:
quote and backslash are escaped; `JSON.stringify` escapes nothing else
in the base64/UUID strings the client embeds. -/
def escByte (b : Nat) : List Nat :=
  if b = 34 then [92, 34] else if b = 92 then [92, 92] else [b]

/-- Escape every byte of a string. -/
def escapeB : List Nat → List Nat
  | [] => []
  | b :: rest => escByte b ++ escapeB rest

/-- The exact bytes `JSON.stringify` produces for the x402 header object
`\x7bx402Version: 1, scheme: "exact", network: "solana-mainnet-beta",
payload: \x7btxBase64, reference\x7d\x7d` (key order is insertion order). -/
def headerJsonBytes (txB64 ref : List Nat) : List Nat :=
  ascii ("\x7b\"x402Version\":1,\"scheme\":\"exact\",\"network\":\"solana-mainnet-beta\",\"payload\":\x7b\"txBase64\":\"")
    ++ escapeB txB64
    ++ ascii ("\",\"reference\":\"")
    ++ escapeB ref
    ++ ascii ("\"\x7d\x7d")

/-! ### Data model -/

/-- The SPL token program id (`TOKEN_PROGRAM_ID`). -/
def TOKEN_PROGRAM_ID : String := "TokenkegQfeZyiNwAJbNbGKPFXCWuBvf9Ss623VQ5DA"

/-- The USDC mainnet mint hard-coded in the weather handler. -/
def USDC_MINT : String := "EPjFWdd5AufqSSqeM2qN1xzybapC8G4wEGGkZwyTDt1v"

/-- A parsed token account as returned by
`getParsedTokenAccountsByOwner`: its mint and its `uiAmount` balance
(the RPC's decimal number, modelled as a rational). -/
structure TokenAccount where
  mint : String
  uiAmount : Rat
deriving DecidableEq

/-- The `functions.config().solana` configuration surface. -/
structure Config where
  memberspl : String
  membersplreq : Rat
  rpcurl : String
  merchanttokenacc : String
deriving DecidableEq

/-- The Solana RPC connection, as an oracle over the two operations the
engine uses.  `sendRawTransaction` may fail (network rejection). -/
structure Chain where
  getParsedTokenAccountsByOwner : String → List TokenAccount
  sendRawTransaction : List Nat → Except String String

/-- One entry of `tx.signatures`: web3.js `Transaction.from` stores
`null` (here `none`) for an absent/default signature, otherwise the
64 signature bytes. -/
structure SigPair where
  publicKey : String
  signature : Option (List Nat)
deriving DecidableEq

/-- A transaction instruction: program id, account keys in order, data. -/
structure Instruction where
  programId : String
  keys : List String
  data : List Nat
deriving DecidableEq

/-- A deserialized transaction (`Transaction.from`): fee payer (the
first account key, always present on wire transactions), instructions,
signature set, and the raw wire bytes that `serialize()` returns. -/
structure Transaction where
  feePayer : String
  instructions : List Instruction
  signatures : List SigPair
  serialized : List Nat
deriving DecidableEq

/-- One accepted payment requirement (`accepts[i]`). -/
structure PaymentRequirement where
  scheme : String
  network : String
  asset : String
  maxAmountRequired : Nat
  payTo : String
  resource : String
  description : String
  maxTimeoutSeconds : Nat
deriving DecidableEq

/-- The published payment requirements. -/
structure PaymentRequirements where
  x402Version : Nat
  accepts : List PaymentRequirement
deriving DecidableEq

/-- Network-touching steps of one evaluation, in execution order:
`new Connection`, `getParsedTokenAccountsByOwner`, the call into
`verifyTransaction`, and `sendRawTransaction`. -/
inductive Event where
  | connCreate
  | tokenAccountsQuery
  | verifyTxCall
  | broadcastCall
deriving DecidableEq

/-! ### Verification & settlement engine (src/functions/index.js) -/

/-- The error thrown when base64/JSON decoding of the header fails. -/
def msgDecodeFail : String := "Failed to decode x-payment header"

/-- The error thrown on a version/scheme/network mismatch. -/
def msgUnsupported : String := "Unsupported x402 version / scheme / network"

/-- `decodePaymentHeader`: base64-decode then `JSON.parse`, with any
failure collapsed to the single `msgDecodeFail` error. -/
def decodePaymentHeader (headerValue : List Nat) : Except String JVal :=
  match jsonParse (b64decode headerValue) with
  | some v => Except.ok v
  | none => Except.error msgDecodeFail

/-- Failure modes of `validatePaymentRequirements`: the explicit
mismatch throw, or the TypeError from reading `.scheme` of
`accepts[0]` when `accepts` is empty. -/
inductive ValidationFailure where
  | mismatch
  | headOfEmpty
deriving DecidableEq

/-- JavaScript strict equality `v === n` between a possibly-undefined
parsed value and a number. -/
def isNumEq (v : Option JVal) (n : Nat) : Bool :=
  match v with
  | some (JVal.jnum m) => m == n
  | _ => false

/-- JavaScript strict equality `v === s` between a possibly-undefined
parsed value and a string. -/
def isStrEq (v : Option JVal) (s : String) : Bool :=
  match v with
  | some (JVal.jstr b) => b == ascii s
  | _ => false

/-- `validatePaymentRequirements`: compare the decoded header's
`x402Version`, `scheme` and `network` with the first accepted
requirement.  The `x402Version` disjunct is evaluated first, so an
empty `accepts` only faults when the version matches. -/
def validatePaymentRequirements (decoded : JVal) (paymentRequirements : PaymentRequirements) :
    Except ValidationFailure PaymentRequirement :=
  if isNumEq (getField decoded ("x402Version")) paymentRequirements.x402Version = false then
    Except.error ValidationFailure.mismatch
  else
    match paymentRequirements.accepts.head? with
    | none => Except.error ValidationFailure.headOfEmpty
    | some req =>
      if isStrEq (getField decoded ("scheme")) req.scheme = false
          ∨ isStrEq (getField decoded ("network")) req.network = false then
        Except.error ValidationFailure.mismatch
      else Except.ok req

/-- The message of a `ValidationFailure`, as thrown in index.js. -/
def validationMsg : ValidationFailure → String
  | ValidationFailure.mismatch => msgUnsupported
  | ValidationFailure.headOfEmpty => "Cannot read properties of undefined reading scheme"

/-- Failure modes of the payload extraction
`const \x7b txBase64, reference \x7d = decoded.payload ?? \x7b\x7d`
followed by the two presence checks and `Buffer.from(txBase64, "base64")`. -/
inductive PayloadFailure where
  | missingTx
  | missingRef
  | bufferType
deriving DecidableEq

/-- The message of a `PayloadFailure` as surfaced in index.js
(`bufferType` is the Node `Buffer.from` TypeError on a truthy
non-string `txBase64`). -/
def payloadMsg : PayloadFailure → String
  | PayloadFailure.missingTx => "Missing txBase64 in payload"
  | PayloadFailure.missingRef => "Missing reference in payload"
  | PayloadFailure.bufferType =>
      "The first argument must be of type string or an instance of Buffer, ArrayBuffer, or Array or an Array-like Object."

/-- Property access `decoded.payload.<k>` with `?? \x7b\x7d` semantics:
`none` when `payload` is absent, not an object, or lacks the key. -/
def getPayloadField (decoded : JVal) (k : String) : Option JVal :=
  match getField decoded ("payload") with
  | some p => getField p k
  | none => none

/-- Extract and check the payload: `txBase64` and `reference` must be
present and truthy, in that order, and `txBase64` must be a string for
`Buffer.from`.  Returns the `txBase64` byte string. -/
def payloadTxRef (decoded : JVal) : Except PayloadFailure (List Nat) :=
  match getPayloadField decoded ("txBase64") with
  | none => Except.error PayloadFailure.missingTx
  | some v =>
    if truthy v = false then Except.error PayloadFailure.missingTx
    else
      match getPayloadField decoded ("reference") with
      | none => Except.error PayloadFailure.missingRef
      | some w =>
        if truthy w = false then Except.error PayloadFailure.missingRef
        else
          match v with
          | JVal.jstr s => Except.ok s
          | _ => Except.error PayloadFailure.bufferType

/-- `checkMembership` (src/functions/index.js:57): query all token
accounts of the fee payer, pick the first whose mint is the configured
membership token, and compare its balance **strictly** against the
configured threshold; no account for the mint means not a member. -/
def checkMembership (cfg : Config) (chain : Chain) (feePayer : String) :
    Bool × List Event :=
  let tokenAccounts := chain.getParsedTokenAccountsByOwner feePayer
  (match tokenAccounts.find? (fun account => account.mint == cfg.memberspl) with
    | none => false
    | some tokenAccount => decide (tokenAccount.uiAmount > cfg.membersplreq),
   [Event.tokenAccountsQuery])

/-- The decoded `transferChecked` instruction as produced by
`decodeTransferCheckedInstruction`. -/
structure ParsedTransferChecked where
  amount : Nat
  decimals : Nat
  source : String
  mint : String
  destination : String
  owner : String
deriving DecidableEq

/-- Little-endian u64 read of 8 data bytes. -/
def leU64 : List Nat → Nat
  | [] => 0
  | b :: rest => b + 256 * leU64 rest

/-- `decodeTransferCheckedInstruction` (@solana/spl-token): checks the
program id, the 10-byte data span, the instruction tag 12
(`TransferChecked`), and the presence of the four required keys
(source, mint, destination, owner); throws a distinct library error
otherwise. -/
def decodeTransferCheckedInstruction (ix : Instruction) : Except String ParsedTransferChecked :=
  if ix.programId ≠ TOKEN_PROGRAM_ID then Except.error "TokenInvalidInstructionProgramError"
  else if ix.data.length ≠ 10 then Except.error "TokenInvalidInstructionDataError"
  else if ix.data.head? ≠ some 12 then Except.error "TokenInvalidInstructionTypeError"
  else
    match ix.keys with
    | source :: mint :: destination :: owner :: _ =>
        Except.ok
          { amount := leU64 ((ix.data.drop 1).take 8)
            decimals := (ix.data.drop 9).headD 0
            source := source, mint := mint, destination := destination, owner := owner }
    | _ => Except.error "TokenInvalidInstructionKeysError"

/-- The field checks of `verifyTransaction` after decoding, in source
order: decimals, amount, destination, mint, then fee-payer signature
presence.  Returns the fee payer. -/
def checkParsedTransfer (tx : Transaction) (req : PaymentRequirement)
    (parsed : ParsedTransferChecked) : Except String String :=
  if parsed.decimals ≠ 6 then Except.error "Token decimals must be 6"
  else if parsed.amount ≠ req.maxAmountRequired then
    Except.error ("Incorrect amount – expected " ++ Nat.repr req.maxAmountRequired
      ++ ", got " ++ Nat.repr parsed.amount)
  else if parsed.destination ≠ req.payTo then
    Except.error "Funds not going to the merchant account"
  else if parsed.mint ≠ req.asset then Except.error "Wrong token mint"
  else
    match tx.signatures.find? (fun sig => sig.publicKey == tx.feePayer) with
    | none => Except.error "Buyer (fee payer) signature missing"
    | some feePayerSig =>
      match feePayerSig.signature with
      | none => Except.error "Buyer (fee payer) signature missing"
      | some _ => Except.ok tx.feePayer

/-- `verifyTransaction` (src/functions/index.js:81): find the first
instruction addressed to the token program, decode it as
`transferChecked` (the library call throws if it is not), then run the
field and signature checks. -/
def verifyTransaction (tx : Transaction) (req : PaymentRequirement) : Except String String :=
  match tx.instructions.find? (fun ix => ix.programId == TOKEN_PROGRAM_ID) with
  | none => Except.error "No Token transferChecked in tx"
  | some transferIx =>
    match decodeTransferCheckedInstruction transferIx with
    | Except.error e => Except.error e
    | Except.ok parsed => checkParsedTransfer tx req parsed

/-- `broadcastTransaction`: submit the serialized transaction with
preflight disabled.  `tx.serialize()` is modelled as the stored wire
bytes (its internal cryptographic signature re-verification is outside
the embedding). -/
def broadcastTransaction (chain : Chain) (tx : Transaction) : Except String String :=
  chain.sendRawTransaction tx.serialized

/-- The value `verifyAndSettle` returns in index.js: the fee payer's
public key on the member path, the broadcast signature otherwise. -/
inductive VSOut where
  | memberPayer : String → VSOut
  | settledSig : String → VSOut
deriving DecidableEq

/-- `verifyAndSettle` (src/functions/index.js:138), with the event
trace of network-touching steps.  Errors model thrown exceptions. -/
def verifyAndSettle (cfg : Config) (chain : Chain)
    (parseTx : List Nat → Except String Transaction)
    (headerValue : List Nat) (paymentRequirements : PaymentRequirements) :
    Except String VSOut × List Event :=
  match decodePaymentHeader headerValue with
  | Except.error e => (Except.error e, [])
  | Except.ok decoded =>
    match validatePaymentRequirements decoded paymentRequirements with
    | Except.error f => (Except.error (validationMsg f), [])
    | Except.ok req =>
      match payloadTxRef decoded with
      | Except.error f => (Except.error (payloadMsg f), [])
      | Except.ok txB64 =>
        match parseTx (b64decode txB64) with
        | Except.error e => (Except.error e, [])
        | Except.ok tx =>
          let mres := checkMembership cfg chain tx.feePayer
          let events := Event.connCreate :: mres.2
          if mres.1 then (Except.ok (VSOut.memberPayer tx.feePayer), events)
          else
            let events2 := events ++ [Event.verifyTxCall]
            match verifyTransaction tx req with
            | Except.error e => (Except.error e, events2)
            | Except.ok _ =>
              let events3 := events2 ++ [Event.broadcastCall]
              match broadcastTransaction chain tx with
              | Except.error e => (Except.error e, events3)
              | Except.ok sig => (Except.ok (VSOut.settledSig sig), events3)

/-! ### Resource handler (src/functions/index.js:182) -/

/-- An incoming HTTP request: method, path, and the `x-payment` header. -/
structure HttpRequest where
  method : String
  path : String
  xPayment : Option (List Nat)

/-- The possible JSON response bodies of exports.weather. -/
inductive RespBody where
  | empty
  | notFound
  | challenge : PaymentRequirements → RespBody
  | challengeErr : PaymentRequirements → Option String → RespBody
  | weatherJson : Nat → RespBody
  | settlementFailed

/-- The index.js receipt `\x7btxHash, settledAt\x7d`; `txHash` is the
JSON-stringified `verifyAndSettle` result (a `PublicKey` stringifies to
its base58 form via `toJSON`). -/
structure ReceiptV1 where
  txHash : String
  settledAt : String
deriving DecidableEq

/-- The HTTP response: status, body, and the `X-PAYMENT-RESPONSE`
receipt (modelled structurally; the header carries its base64 JSON). -/
structure HttpResponse where
  status : Nat
  body : RespBody
  paymentResponse : Option ReceiptV1

/-- JavaScript truthiness of the `verifyAndSettle` result: a
`PublicKey` object is always truthy, a string is truthy iff non-empty. -/
def vsOutTruthy : VSOut → Bool
  | VSOut.memberPayer _ => true
  | VSOut.settledSig s => s ≠ ""

/-- The string `JSON.stringify` puts in the receipt for the result. -/
def vsOutStr : VSOut → String
  | VSOut.memberPayer pk => pk
  | VSOut.settledSig s => s

/-- The `paymentRequirements` literal built per request in the weather
handler (src/functions/index.js:208). -/
def weatherPaymentRequirements (cfg : Config) : PaymentRequirements :=
  { x402Version := 1
    accepts := [{ scheme := "exact"
                  network := "solana-mainnet-beta"
                  asset := USDC_MINT
                  maxAmountRequired := 10000
                  payTo := cfg.merchanttokenacc
                  resource := "GET /weather"
                  description := "Weather API per call (0.01 USDC)"
                  maxTimeoutSeconds := 120 }] }

/-- `exports.weather` (src/functions/index.js:182): routing, the 402
challenge, invoking `verifyAndSettle`, and shaping the response.
`now` is the `new Date().toISOString()` timestamp. -/
def weather (cfg : Config) (chain : Chain)
    (parseTx : List Nat → Except String Transaction) (now : String)
    (req : HttpRequest) : HttpResponse × List Event :=
  if req.method = "OPTIONS" then
    ({ status := 204, body := RespBody.empty, paymentResponse := none }, [])
  else if req.method ≠ "GET" ∨ (req.path ≠ "/" ∧ req.path ≠ "/weather") then
    ({ status := 404, body := RespBody.notFound, paymentResponse := none }, [])
  else
    let paymentRequirements := weatherPaymentRequirements cfg
    match req.xPayment with
    | none =>
        ({ status := 402, body := RespBody.challenge paymentRequirements,
           paymentResponse := none }, [])
    | some payHeader =>
      match verifyAndSettle cfg chain parseTx payHeader paymentRequirements with
      | (Except.error e, events) =>
          ({ status := 402, body := RespBody.challengeErr paymentRequirements (some e),
             paymentResponse := none }, events)
      | (Except.ok txHash, events) =>
        if vsOutTruthy txHash then
          ({ status := 200, body := RespBody.weatherJson 72,
             paymentResponse := some { txHash := vsOutStr txHash, settledAt := now } }, events)
        else
          ({ status := 500, body := RespBody.settlementFailed,
             paymentResponse := none }, events)

/-! ### The second server revision (src/unnamed/part_003:433-736)

This revision returns ad-hoc result objects instead of throwing, uses an
**inclusive** membership comparison, and emits an explicit member-access
receipt. -/

/-- `checkMembership` of the part_003 revision: identical lookup, but
`balance >= memberSplReq`. -/
def checkMembershipV2 (cfg : Config) (chain : Chain) (feePayer : String) :
    Bool × List Event :=
  let tokenAccounts := chain.getParsedTokenAccountsByOwner feePayer
  (match tokenAccounts.find? (fun account => account.mint == cfg.memberspl) with
    | none => false
    | some tokenAccount => decide (tokenAccount.uiAmount ≥ cfg.membersplreq),
   [Event.tokenAccountsQuery])

/-- The ad-hoc result object of the part_003 `verifyAndSettle`. -/
structure SettleResult where
  success : Bool
  isMemberAccess : Bool := false
  feePayer : Option String := none
  txHash : Option String := none
  networkId : Option String := none
  error : Option String := none
  message : Option String := none
deriving DecidableEq

/-- `verifyAndSettle` of the part_003 revision (line 521): returns
result objects for all handled failures; `Except.error` models the
exceptions it does not catch (transaction deserialization and the
`Buffer.from` TypeError, plus the empty-`accepts` TypeError). -/
def verifyAndSettleV2 (cfg : Config) (chain : Chain)
    (parseTx : List Nat → Except String Transaction)
    (headerValue : List Nat) (paymentRequirements : PaymentRequirements) :
    Except String SettleResult × List Event :=
  match decodePaymentHeader headerValue with
  | Except.error _ =>
      (Except.ok { success := false, error := some msgDecodeFail }, [])
  | Except.ok decoded =>
    match validatePaymentRequirements decoded paymentRequirements with
    | Except.error ValidationFailure.mismatch =>
        (Except.ok { success := false, error := some msgUnsupported }, [])
    | Except.error f => (Except.error (validationMsg f), [])
    | Except.ok req =>
      match payloadTxRef decoded with
      | Except.error PayloadFailure.bufferType =>
          (Except.error (payloadMsg PayloadFailure.bufferType), [])
      | Except.error f =>
          (Except.ok { success := false, error := some (payloadMsg f) }, [])
      | Except.ok txB64 =>
        match parseTx (b64decode txB64) with
        | Except.error e => (Except.error e, [])
        | Except.ok tx =>
          let mres := checkMembershipV2 cfg chain tx.feePayer
          let events := Event.connCreate :: mres.2
          if mres.1 then
            (Except.ok { success := true, isMemberAccess := true,
                         feePayer := some tx.feePayer,
                         message := some "Member free access granted" }, events)
          else
            let events2 := events ++ [Event.verifyTxCall]
            match verifyTransaction tx req with
            | Except.error e =>
                (Except.ok { success := false, error := some e }, events2)
            | Except.ok _ =>
              let events3 := events2 ++ [Event.broadcastCall]
              match broadcastTransaction chain tx with
              | Except.error e =>
                  (Except.ok { success := false, error := some e }, events3)
              | Except.ok sig =>
                  (Except.ok { success := true, txHash := some sig,
                               networkId := some "solana-mainnet-beta" }, events3)

/-- The `X-PAYMENT-RESPONSE` receipt of the part_003 weather handler:
either the member-access receipt or the settlement receipt. -/
inductive ReceiptV2 where
  | member : Option String → Option String → String → ReceiptV2
  | settled : String → Option String → String → ReceiptV2

/-- Responses of the part_003 weather handler. -/
structure HttpResponseV2 where
  status : Nat
  body : RespBody
  paymentResponse : Option ReceiptV2

/-- The `paymentRequirements` literal of the part_003 handler (the
display-only `mimeType`, `outputSchema` and `extra` fields are not part
of the model; the engine never reads them). -/
def weatherPaymentRequirementsV2 (cfg : Config) : PaymentRequirements :=
  { x402Version := 1
    accepts := [{ scheme := "exact"
                  network := "solana-mainnet-beta"
                  asset := USDC_MINT
                  maxAmountRequired := 10000
                  payTo := cfg.merchanttokenacc
                  resource := "GET /weather"
                  description := "Weather API per call (0.01 USDC). Member free access available."
                  maxTimeoutSeconds := 120 }] }

/-- Truthiness of `result.txHash` in the part_003 handler. -/
def txHashTruthy : Option String → Bool
  | some h => h ≠ ""
  | none => false

/-- `exports.weather` of the part_003 revision (line 625).  `none`
models the unhandled promise rejection when `verifyAndSettle` throws
(no `try`/`catch` in this revision). -/
def weatherV2 (cfg : Config) (chain : Chain)
    (parseTx : List Nat → Except String Transaction) (now : String)
    (req : HttpRequest) : Option HttpResponseV2 × List Event :=
  if req.method = "OPTIONS" then
    (some { status := 204, body := RespBody.empty, paymentResponse := none }, [])
  else if req.method ≠ "GET" ∨ (req.path ≠ "/" ∧ req.path ≠ "/weather") then
    (some { status := 404, body := RespBody.notFound, paymentResponse := none }, [])
  else
    let paymentRequirements := weatherPaymentRequirementsV2 cfg
    match req.xPayment with
    | none =>
        (some { status := 402, body := RespBody.challenge paymentRequirements,
                paymentResponse := none }, [])
    | some payHeader =>
      match verifyAndSettleV2 cfg chain parseTx payHeader paymentRequirements with
      | (Except.error _, events) => (none, events)
      | (Except.ok result, events) =>
        if result.success = false then
          (some { status := 402,
                  body := RespBody.challengeErr paymentRequirements result.error,
                  paymentResponse := none }, events)
        else if result.isMemberAccess then
          (some { status := 200, body := RespBody.weatherJson 72,
                  paymentResponse :=
                    some (ReceiptV2.member result.feePayer result.message now) }, events)
        else if txHashTruthy result.txHash then
          (some { status := 200, body := RespBody.weatherJson 72,
                  paymentResponse :=
                    some (ReceiptV2.settled (result.txHash.getD "") result.networkId now) },
           events)
        else
          (some { status := 500, body := RespBody.settlementFailed,
                  paymentResponse := none }, events)

/-- `buildX402Header` (src/unnamed/part_003:118): base64 of the JSON
serialization of the payload, with `txBase64` the base64 of the signed
transaction's wire bytes. -/
def buildX402Header (signed : Transaction) (ref : List Nat) : List Nat :=
  b64encode (headerJsonBytes (b64encode signed.serialized) ref)

/-! ### Concrete fixtures used by the witness theorems -/

/-- A configuration with membership threshold 5. -/
def cfgW : Config := { memberspl := "MEMB", membersplreq := 5, rpcurl := "rpc",
                       merchanttokenacc := "MERCH" }

/-- A chain oracle with fixed token accounts and broadcast result. -/
def chainOf (accts : List TokenAccount) (bres : Except String String) : Chain :=
  { getParsedTokenAccountsByOwner := fun _ => accts
    sendRawTransaction := fun _ => bres }

/-- A transfer-checked instruction for 10000 units (LE bytes 16,39),
6 decimals, keys source/mint/destination/owner. -/
def txIxW : Instruction :=
  { programId := TOKEN_PROGRAM_ID, keys := ["SRC", "USDC", "MERCH", "FP"],
    data := [12, 16, 39, 0, 0, 0, 0, 0, 0, 6] }

/-- A transaction paying 10000 to MERCH, signed by fee payer FP. -/
def txW : Transaction :=
  { feePayer := "FP", instructions := [txIxW],
    signatures := [{ publicKey := "FP", signature := some [1, 2] }],
    serialized := [9, 9, 9] }

/-- A requirement matching `txW`. -/
def reqW : PaymentRequirement :=
  { scheme := "exact", network := "solana-mainnet-beta", asset := "USDC",
    maxAmountRequired := 10000, payTo := "MERCH", resource := "GET /weather",
    description := "d", maxTimeoutSeconds := 120 }

/-- Requirements wrapping `reqW`. -/
def reqsW : PaymentRequirements := { x402Version := 1, accepts := [reqW] }

/-- A transaction-deserialization oracle returning `txW`. -/
def parseTxW : List Nat → Except String Transaction := fun _ => Except.ok txW

/-- A decodable header built by the client codec over `txW`. -/
def hdrW : List Nat := buildX402Header txW (ascii ("ref-1"))

end X402

namespace X402

/-! ## Claim theorems -/

/-- C1.  `checkMembership` (src/functions/index.js:57) uses
strictly-greater-than semantics: the located membership token account's
balance equal to the threshold yields `false`, strictly greater yields
`true`, and a fee payer with no token account for the membership mint
is not a member. -/
theorem c1_checkMembership_strict (cfg : Config) (chain : Chain) (fp : String) :
    (∀ acct,
      (chain.getParsedTokenAccountsByOwner fp).find?
          (fun a => a.mint == cfg.memberspl) = some acct →
        (acct.uiAmount = cfg.membersplreq → (checkMembership cfg chain fp).1 = false)
        ∧ (acct.uiAmount > cfg.membersplreq → (checkMembership cfg chain fp).1 = true))
    ∧ ((chain.getParsedTokenAccountsByOwner fp).find?
          (fun a => a.mint == cfg.memberspl) = none →
        (checkMembership cfg chain fp).1 = false) := by
  constructor
  · intro acct hfind
    constructor
    · intro heq
      simp only [checkMembership, hfind, heq]
      simp
    · intro hgt
      simp only [checkMembership, hfind]
      simp [hgt]
  · intro hfind
    simp only [checkMembership, hfind]

/-- Witness for C1 at threshold 5: balance 5 is not a member, balance 7
is, and an owner with no matching account is not. -/
theorem c1_checkMembership_strict_witness :
    (checkMembership cfgW (chainOf [{ mint := "MEMB", uiAmount := 5 }] (Except.ok "S")) "FP").1
        = false
    ∧ (checkMembership cfgW (chainOf [{ mint := "MEMB", uiAmount := 7 }] (Except.ok "S")) "FP").1
        = true
    ∧ (checkMembership cfgW (chainOf [] (Except.ok "S")) "FP").1 = false := by
  refine ⟨?_, ?_, ?_⟩
  · exact ((c1_checkMembership_strict cfgW
      (chainOf [{ mint := "MEMB", uiAmount := 5 }] (Except.ok "S")) "FP").1
      { mint := "MEMB", uiAmount := 5 } (by decide)).1 (by decide)
  · exact ((c1_checkMembership_strict cfgW
      (chainOf [{ mint := "MEMB", uiAmount := 7 }] (Except.ok "S")) "FP").1
      { mint := "MEMB", uiAmount := 7 } (by decide)).2 (by decide)
  · exact (c1_checkMembership_strict cfgW (chainOf [] (Except.ok "S")) "FP").2 (by decide)


/-! ## Codec lemmas (base64 and JSON round-trip) -/

/-- The base64 digit maps are mutually inverse on sextets. -/
theorem b64d_b64c : ∀ s < 64, b64d (b64c s) = some s := by decide

/-- Lenient base64 decoding inverts encoding on byte lists. -/
theorem b64_roundtrip (bs : List Nat) (h : ∀ b ∈ bs, b < 256) :
    b64decode (b64encode bs) = bs := by
  induction bs using b64encode.induct with
  | case1 => rfl
  | case2 b0 =>
    have h0 : b0 < 256 := h b0 (by simp)
    have e0 := b64d_b64c (b0 / 4) (by omega)
    have e1 := b64d_b64c (b0 % 4 * 16) (by omega)
    simp only [b64encode, b64decode, List.filterMap_cons, e0, e1]
    have e61 : b64d 61 = none := rfl
    simp only [e61, List.filterMap_nil, deSex]
    simp
    omega
  | case3 b0 b1 =>
    have h0 : b0 < 256 := h b0 (by simp)
    have h1 : b1 < 256 := h b1 (by simp)
    have e0 := b64d_b64c (b0 / 4) (by omega)
    have e1 := b64d_b64c (b0 % 4 * 16 + b1 / 16) (by omega)
    have e2 := b64d_b64c (b1 % 16 * 4) (by omega)
    simp only [b64encode, b64decode, List.filterMap_cons, e0, e1, e2]
    have e61 : b64d 61 = none := rfl
    simp only [e61, List.filterMap_nil, deSex]
    simp
    constructor
    · omega
    · omega
  | case4 b0 b1 b2 rest ih =>
    have h0 : b0 < 256 := h b0 (by simp)
    have h1 : b1 < 256 := h b1 (by simp)
    have h2 : b2 < 256 := h b2 (by simp)
    have e0 := b64d_b64c (b0 / 4) (by omega)
    have e1 := b64d_b64c (b0 % 4 * 16 + b1 / 16) (by omega)
    have e2 := b64d_b64c (b1 % 16 * 4 + b2 / 64) (by omega)
    have e3 := b64d_b64c (b2 % 64) (by omega)
    have ihx : b64decode (b64encode rest) = rest := by
      apply ih
      intro b hb
      exact h b (by simp [hb])
    simp only [b64encode, b64decode, List.filterMap_cons, e0, e1, e2, e3, deSex]
    unfold b64decode at ihx
    rw [ihx]
    simp
    refine ⟨by omega, by omega, by omega⟩

/-- `parseStr` on a closing quote. -/
theorem parseStr_quote (rest : List Nat) : parseStr (34 :: rest) = some ([], rest) := by
  rw [parseStr.eq_def]
  rfl

/-- `parseStr` on an escape sequence. -/
theorem parseStr_esc (c : Nat) (rest : List Nat) (h : c = 34 ∨ c = 92) :
    parseStr (92 :: (c :: rest)) = (parseStr rest).map (fun p => (c :: p.1, p.2)) := by
  rw [parseStr.eq_def]
  simp [h]

/-- `parseStr` on an ordinary byte. -/
theorem parseStr_other (b : Nat) (rest : List Nat) (h1 : ¬b = 34) (h2 : ¬b = 92) :
    parseStr (b :: rest) = (parseStr rest).map (fun p => (b :: p.1, p.2)) := by
  rw [parseStr.eq_def]
  simp [h1, h2]

/-- Parsing a string body undoes the client-side escaping. -/
theorem parseStr_escapeB (s rest : List Nat) :
    parseStr (escapeB s ++ (34 :: rest)) = some (s, rest) := by
  induction s with
  | nil =>
    simp only [escapeB, List.nil_append, parseStr_quote]
  | cons b s ih =>
    by_cases h34 : b = 34
    · subst h34
      simp [escapeB, escByte, parseStr_esc, ih]
    · by_cases h92 : b = 92
      · subst h92
        simp [escapeB, escByte, parseStr_esc, ih]
      · simp [escapeB, escByte, h34, h92, parseStr_other, ih]

/-- Fuel-zero equation for the field parser. -/
theorem parseFieldsWith_zero (pv : List Nat → Option (JVal × List Nat)) (bs : List Nat) :
    parseFieldsWith pv 0 bs = none := by
  rw [parseFieldsWith.eq_def]

/-- Empty-input equation for the field parser. -/
theorem parseFieldsWith_nil (pv : List Nat → Option (JVal × List Nat)) (fuel : Nat) :
    parseFieldsWith pv (fuel + 1) [] = none := by
  rw [parseFieldsWith.eq_def]

/-- One-step unfolding of the field parser. -/
theorem parseFieldsWith_succ (pv : List Nat → Option (JVal × List Nat)) (fuel : Nat)
    (b : Nat) (rest : List Nat) :
    parseFieldsWith pv (fuel + 1) (b :: rest)
      = (if b = 34 then
          match parseStr rest with
          | none => none
          | some (key, rest1) =>
            match rest1 with
            | [] => none
            | b2 :: rest2 =>
              if b2 = 58 then
                match pv rest2 with
                | none => none
                | some (v, rest3) =>
                  match rest3 with
                  | [] => none
                  | b3 :: rest4 =>
                    if b3 = 44 then
                      (parseFieldsWith pv fuel rest4).map (fun p => ((key, v) :: p.1, p.2))
                    else if b3 = 125 then some ([(key, v)], rest4)
                    else none
              else none
          else none) := by
  rw [parseFieldsWith.eq_def]

/-- The header JSON written out byte by byte around the two escaped
string segments. -/
theorem headerJson_cons (t r : List Nat) :
    headerJsonBytes t r = 123 :: 34 :: 120 :: 52 :: 48 :: 50 :: 86 :: 101 :: 114 :: 115 :: 105 :: 111 :: 110 :: 34 :: 58 :: 49 :: 44 :: 34 :: 115 :: 99 :: 104 :: 101 :: 109 :: 101 :: 34 :: 58 :: 34 :: 101 :: 120 :: 97 :: 99 :: 116 :: 34 :: 44 :: 34 :: 110 :: 101 :: 116 :: 119 :: 111 :: 114 :: 107 :: 34 :: 58 :: 34 :: 115 :: 111 :: 108 :: 97 :: 110 :: 97 :: 45 :: 109 :: 97 :: 105 :: 110 :: 110 :: 101 :: 116 :: 45 :: 98 :: 101 :: 116 :: 97 :: 34 :: 44 :: 34 :: 112 :: 97 :: 121 :: 108 :: 111 :: 97 :: 100 :: 34 :: 58 :: 123 :: 34 :: 116 :: 120 :: 66 :: 97 :: 115 :: 101 :: 54 :: 52 :: 34 :: 58 :: 34 :: (escapeB t ++ (34 :: 44 :: 34 :: 114 :: 101 :: 102 :: 101 :: 114 :: 101 :: 110 :: 99 :: 101 :: 34 :: 58 :: 34 :: (escapeB r ++ (34 :: 125 :: 125 :: ([] : List Nat))))) := by
  simp only [headerJsonBytes, List.append_assoc]
  rfl

/-- The JSON parser recovers the header object from the serialized
bytes, for arbitrary embedded `txBase64` and `reference` strings. -/
theorem jsonParse_headerJson (t r : List Nat) :
    jsonParse (headerJsonBytes t r)
      = some (JVal.jobj [(ascii ("x402Version"), JVal.jnum 1),
          (ascii ("scheme"), JVal.jstr (ascii ("exact"))),
          (ascii ("network"), JVal.jstr (ascii ("solana-mainnet-beta"))),
          (ascii ("payload"), JVal.jobj [(ascii ("txBase64"), JVal.jstr t),
              (ascii ("reference"), JVal.jstr r)])]) := by
  rw [jsonParse, headerJson_cons]
  simp [parseVal2, parseObjWith, parseFieldsWith_succ, parseVal1, parseAtom, parseNum,
    parseStr_quote, parseStr_other, parseStr_escapeB, isDigitB, ascii]

/-- Base64 alphabet bytes are below 256. -/
theorem b64c_lt (s : Nat) : b64c s < 256 := by
  unfold b64c
  split_ifs <;> omega

/-- Every byte of a base64 encoding is below 256. -/
theorem b64encode_lt (bs : List Nat) : ∀ b ∈ b64encode bs, b < 256 := by
  induction bs using b64encode.induct with
  | case1 => intro b hb; simp [b64encode] at hb
  | case2 b0 =>
    intro b hb
    simp [b64encode] at hb
    rcases hb with h | h | h
    · rw [h]; exact b64c_lt _
    · rw [h]; exact b64c_lt _
    · omega
  | case3 b0 b1 =>
    intro b hb
    simp [b64encode] at hb
    rcases hb with h | h | h | h
    · rw [h]; exact b64c_lt _
    · rw [h]; exact b64c_lt _
    · rw [h]; exact b64c_lt _
    · omega
  | case4 b0 b1 b2 rest ih =>
    intro b hb
    simp [b64encode] at hb
    rcases hb with h | h | h | h | h
    · rw [h]; exact b64c_lt _
    · rw [h]; exact b64c_lt _
    · rw [h]; exact b64c_lt _
    · rw [h]; exact b64c_lt _
    · exact ih b h

/-- Escaping preserves the byte bound. -/
theorem escapeB_lt (s : List Nat) (h : ∀ b ∈ s, b < 256) : ∀ b ∈ escapeB s, b < 256 := by
  induction s with
  | nil => simp [escapeB]
  | cons b0 s ih =>
    intro b hb
    have hb0 : b0 < 256 := h b0 (by simp)
    simp [escapeB] at hb
    rcases hb with h1 | h2
    · unfold escByte at h1
      split_ifs at h1 <;> simp at h1 <;> omega
    · exact ih (fun x hx => h x (by simp [hx])) b h2

/-- Every byte of the serialized header JSON is below 256 when the two
embedded strings are. -/
theorem headerJson_lt (t r : List Nat) (ht : ∀ b ∈ t, b < 256) (hr : ∀ b ∈ r, b < 256) :
    ∀ b ∈ headerJsonBytes t r, b < 256 := by
  intro b hb
  simp only [headerJsonBytes, List.mem_append] at hb
  have hA : ∀ x ∈ ascii ("\x7b\"x402Version\":1,\"scheme\":\"exact\",\"network\":\"solana-mainnet-beta\",\"payload\":\x7b\"txBase64\":\""), x < 256 := by decide
  have hB : ∀ x ∈ ascii ("\",\"reference\":\""), x < 256 := by decide
  have hC : ∀ x ∈ ascii ("\"\x7d\x7d"), x < 256 := by decide
  rcases hb with ((((h | h) | h) | h) | h)
  · exact hA b h
  · exact escapeB_lt t ht b h
  · exact hB b h
  · exact escapeB_lt r hr b h
  · exact hC b h

/-- C6.  The header codec round-trips: decoding
(base64-decode, then JSON-parse) the encoding `buildX402Header`
produces (JSON-serialize, then base64-encode) recovers the payload
object exactly, for every signed transaction and reference string; and
every input whose JSON decoding fails yields the `MalformedHeader`
error (`Failed to decode x-payment header`) rather than a crash —
`decodePaymentHeader` is a total function. -/
theorem c6_header_codec_roundtrip :
    (∀ (signed : Transaction) (ref : List Nat), (∀ b ∈ ref, b < 256) →
      decodePaymentHeader (buildX402Header signed ref)
        = Except.ok (JVal.jobj [(ascii ("x402Version"), JVal.jnum 1),
            (ascii ("scheme"), JVal.jstr (ascii ("exact"))),
            (ascii ("network"), JVal.jstr (ascii ("solana-mainnet-beta"))),
            (ascii ("payload"),
             JVal.jobj [(ascii ("txBase64"), JVal.jstr (b64encode signed.serialized)),
                        (ascii ("reference"), JVal.jstr ref)])]))
    ∧ (∀ hdr, jsonParse (b64decode hdr) = none →
      decodePaymentHeader hdr = Except.error msgDecodeFail) := by
  constructor
  · intro signed ref href
    have hbytes : ∀ b ∈ headerJsonBytes (b64encode signed.serialized) ref, b < 256 :=
      headerJson_lt (b64encode signed.serialized) ref (b64encode_lt signed.serialized) href
    unfold decodePaymentHeader buildX402Header
    rw [b64_roundtrip (headerJsonBytes (b64encode signed.serialized) ref) hbytes,
      jsonParse_headerJson]
  · intro hdr h
    simp [decodePaymentHeader, h]

/-- Witness for C6: the fixture transaction with reference "ref-1"
round-trips, and the non-base64 input `!!!` yields the malformed-header
error. -/
theorem c6_header_codec_roundtrip_witness :
    decodePaymentHeader (buildX402Header txW (ascii ("ref-1")))
      = Except.ok (JVal.jobj [(ascii ("x402Version"), JVal.jnum 1),
          (ascii ("scheme"), JVal.jstr (ascii ("exact"))),
          (ascii ("network"), JVal.jstr (ascii ("solana-mainnet-beta"))),
          (ascii ("payload"),
           JVal.jobj [(ascii ("txBase64"), JVal.jstr (b64encode txW.serialized)),
                      (ascii ("reference"), JVal.jstr (ascii ("ref-1")))])])
    ∧ decodePaymentHeader (ascii ("!!!")) = Except.error msgDecodeFail := by
  constructor
  · exact c6_header_codec_roundtrip.1 txW (ascii ("ref-1")) (by decide)
  · exact c6_header_codec_roundtrip.2 (ascii ("!!!")) (by rfl)

/-- C7.  After the field checks pass, `verifyTransaction`
(src/functions/index.js:108-116) requires an entry for the fee payer in
the signature set with a non-null signature: absence of the entry or a
null signature is rejected with the fee-payer-signature-missing reason,
and any present signature bytes are accepted — the conclusion holds for
every byte value, i.e. without cryptographic re-verification. -/
theorem c7_feePayer_signature_presence (tx : Transaction) (req : PaymentRequirement)
    (ix : Instruction) (parsed : ParsedTransferChecked)
    (hfind : tx.instructions.find? (fun i => i.programId == TOKEN_PROGRAM_ID) = some ix)
    (hdec : decodeTransferCheckedInstruction ix = Except.ok parsed)
    (hd : parsed.decimals = 6) (ha : parsed.amount = req.maxAmountRequired)
    (hdest : parsed.destination = req.payTo) (hm : parsed.mint = req.asset) :
    (tx.signatures.find? (fun sig => sig.publicKey == tx.feePayer) = none →
        verifyTransaction tx req = Except.error "Buyer (fee payer) signature missing")
    ∧ (∀ sp, tx.signatures.find? (fun sig => sig.publicKey == tx.feePayer) = some sp →
        sp.signature = none →
        verifyTransaction tx req = Except.error "Buyer (fee payer) signature missing")
    ∧ (∀ sp bytes, tx.signatures.find? (fun sig => sig.publicKey == tx.feePayer) = some sp →
        sp.signature = some bytes →
        verifyTransaction tx req = Except.ok tx.feePayer) := by
  have base : verifyTransaction tx req = checkParsedTransfer tx req parsed := by
    simp only [verifyTransaction, hfind, hdec]
  refine ⟨?_, ?_, ?_⟩
  · intro hnone
    rw [base]
    simp only [checkParsedTransfer, hd, ha, hdest, hm, hnone]
    simp
  · intro sp hsp hsig
    rw [base]
    simp only [checkParsedTransfer, hd, ha, hdest, hm, hsp, hsig]
    simp
  · intro sp bytes hsp hsig
    rw [base]
    simp only [checkParsedTransfer, hd, ha, hdest, hm, hsp, hsig]
    simp

/-- Witness for C7: on the fixture transaction, a missing entry and a
null signature are rejected, and signature bytes `[1, 2]` are accepted. -/
theorem c7_feePayer_signature_presence_witness :
    verifyTransaction { txW with signatures := [] } reqW
        = Except.error "Buyer (fee payer) signature missing"
    ∧ verifyTransaction { txW with signatures := [{ publicKey := "FP", signature := none }] } reqW
        = Except.error "Buyer (fee payer) signature missing"
    ∧ verifyTransaction txW reqW = Except.ok "FP" := by
  refine ⟨?_, ?_, ?_⟩
  · exact (c7_feePayer_signature_presence { txW with signatures := [] } reqW txIxW
      { amount := 10000, decimals := 6, source := "SRC", mint := "USDC",
        destination := "MERCH", owner := "FP" }
      (by decide) (by rfl) (by decide) (by decide) (by decide) (by decide)).1 (by decide)
  · exact ((c7_feePayer_signature_presence
      { txW with signatures := [{ publicKey := "FP", signature := none }] } reqW txIxW
      { amount := 10000, decimals := 6, source := "SRC", mint := "USDC",
        destination := "MERCH", owner := "FP" }
      (by decide) (by rfl) (by decide) (by decide) (by decide) (by decide)).2.1
      { publicKey := "FP", signature := none } (by decide) (by decide))
  · exact ((c7_feePayer_signature_presence txW reqW txIxW
      { amount := 10000, decimals := 6, source := "SRC", mint := "USDC",
        destination := "MERCH", owner := "FP" }
      (by decide) (by rfl) (by decide) (by decide) (by decide) (by decide)).2.2
      { publicKey := "FP", signature := some [1, 2] } [1, 2] (by decide) (by decide))

/-- C8.  `verifyTransaction` (src/functions/index.js:86-92) selects the
first instruction addressed to the token program: when no instruction
targets the token program the outcome is the
no-qualifying-transfer-instruction rejection, and otherwise the first
such instruction governs — if it fails to decode as `transferChecked`
the library error is the rejection reason, and if it decodes the
remaining checks run on its decoded fields (later token-program
instructions are never consulted). -/
theorem c8_first_token_program_instruction (tx : Transaction) (req : PaymentRequirement) :
    ((∀ ix ∈ tx.instructions, ix.programId ≠ TOKEN_PROGRAM_ID) →
        verifyTransaction tx req = Except.error "No Token transferChecked in tx")
    ∧ (∀ pre ix post, tx.instructions = pre ++ ix :: post →
        (∀ i ∈ pre, i.programId ≠ TOKEN_PROGRAM_ID) → ix.programId = TOKEN_PROGRAM_ID →
        (∀ e, decodeTransferCheckedInstruction ix = Except.error e →
            verifyTransaction tx req = Except.error e)
        ∧ (∀ parsed, decodeTransferCheckedInstruction ix = Except.ok parsed →
            verifyTransaction tx req = checkParsedTransfer tx req parsed)) := by
  constructor
  · intro hall
    have hnone : tx.instructions.find? (fun ix => ix.programId == TOKEN_PROGRAM_ID) = none := by
      rw [List.find?_eq_none]
      intro i hi
      simpa using hall i hi
    simp only [verifyTransaction, hnone]
  · intro pre ix post hsplit hpre hix
    have hfind : tx.instructions.find? (fun i => i.programId == TOKEN_PROGRAM_ID) = some ix := by
      rw [hsplit, List.find?_append]
      have hprenone : pre.find? (fun i => i.programId == TOKEN_PROGRAM_ID) = none := by
        rw [List.find?_eq_none]
        intro i hi
        simpa using hpre i hi
      rw [hprenone]
      simp [List.find?_cons, hix]
    constructor
    · intro e he
      simp only [verifyTransaction, hfind, he]
    · intro parsed hp
      simp only [verifyTransaction, hfind, hp]

/-- Witness for C8: a transaction with no token-program instruction is
rejected with the no-qualifying reason; a transaction whose first
token-program instruction has malformed data is rejected with the
decode error even though a valid transfer follows it. -/
theorem c8_first_token_program_instruction_witness :
    verifyTransaction { txW with instructions := [{ programId := "Memo", keys := [], data := [] }] }
        reqW = Except.error "No Token transferChecked in tx"
    ∧ verifyTransaction
        { txW with instructions := [{ programId := "Memo", keys := [], data := [] },
                                    { programId := TOKEN_PROGRAM_ID, keys := [], data := [7] },
                                    txIxW] } reqW
        = Except.error "TokenInvalidInstructionDataError" := by
  constructor
  · exact (c8_first_token_program_instruction
      { txW with instructions := [{ programId := "Memo", keys := [], data := [] }] } reqW).1
      (by decide)
  · exact (((c8_first_token_program_instruction
      { txW with instructions := [{ programId := "Memo", keys := [], data := [] },
                                  { programId := TOKEN_PROGRAM_ID, keys := [], data := [7] },
                                  txIxW] } reqW).2
      [{ programId := "Memo", keys := [], data := [] }]
      { programId := TOKEN_PROGRAM_ID, keys := [], data := [7] }
      [txIxW] (by decide) (by decide) (by decide)).1
      "TokenInvalidInstructionDataError" (by rfl))

/-- Helper: when the header pipeline succeeds and the fee payer is a
member, `verifyAndSettle` short-circuits. -/
theorem verifyAndSettle_member
    (cfg : Config) (chain : Chain) (parseTx : List Nat → Except String Transaction)
    (hdr : List Nat) (reqs : PaymentRequirements) (d : JVal) (rq : PaymentRequirement)
    (txb : List Nat) (tx : Transaction)
    (hdec : decodePaymentHeader hdr = Except.ok d)
    (hval : validatePaymentRequirements d reqs = Except.ok rq)
    (hpay : payloadTxRef d = Except.ok txb)
    (htx : parseTx (b64decode txb) = Except.ok tx)
    (hmem : (checkMembership cfg chain tx.feePayer).1 = true) :
    verifyAndSettle cfg chain parseTx hdr reqs
      = (Except.ok (VSOut.memberPayer tx.feePayer),
         [Event.connCreate, Event.tokenAccountsQuery]) := by
  have hm2 : (checkMembership cfg chain tx.feePayer).2 = [Event.tokenAccountsQuery] := rfl
  simp only [verifyAndSettle, hdec, hval, hpay, htx, hmem, hm2]
  simp

/-- Helper: when the header pipeline succeeds and the fee payer is not
a member, `verifyAndSettle` continues into `verifyTransaction` and the
broadcast, with the corresponding event trace. -/
theorem verifyAndSettle_nonmember
    (cfg : Config) (chain : Chain) (parseTx : List Nat → Except String Transaction)
    (hdr : List Nat) (reqs : PaymentRequirements) (d : JVal) (rq : PaymentRequirement)
    (txb : List Nat) (tx : Transaction)
    (hdec : decodePaymentHeader hdr = Except.ok d)
    (hval : validatePaymentRequirements d reqs = Except.ok rq)
    (hpay : payloadTxRef d = Except.ok txb)
    (htx : parseTx (b64decode txb) = Except.ok tx)
    (hmem : (checkMembership cfg chain tx.feePayer).1 = false) :
    verifyAndSettle cfg chain parseTx hdr reqs
      = match verifyTransaction tx rq with
        | Except.error e =>
            (Except.error e,
             [Event.connCreate, Event.tokenAccountsQuery, Event.verifyTxCall])
        | Except.ok _ =>
          match broadcastTransaction chain tx with
          | Except.error e =>
              (Except.error e,
               [Event.connCreate, Event.tokenAccountsQuery, Event.verifyTxCall,
                Event.broadcastCall])
          | Except.ok sig =>
              (Except.ok (VSOut.settledSig sig),
               [Event.connCreate, Event.tokenAccountsQuery, Event.verifyTxCall,
                Event.broadcastCall]) := by
  have hm2 : (checkMembership cfg chain tx.feePayer).2 = [Event.tokenAccountsQuery] := rfl
  simp only [verifyAndSettle, hdec, hval, hpay, htx, hmem, hm2]
  rfl

/-- C2.  When the fee payer is judged a member, `verifyAndSettle`
(src/functions/index.js:157-165) returns the member-granted outcome
immediately: `verifyTransaction` is never invoked, no structural or
financial validation occurs, and `sendRawTransaction` is never called —
for an arbitrary attached transaction, however invalid or unsigned. -/
theorem c2_member_short_circuit
    (cfg : Config) (chain : Chain) (parseTx : List Nat → Except String Transaction)
    (hdr : List Nat) (reqs : PaymentRequirements) (d : JVal) (rq : PaymentRequirement)
    (txb : List Nat) (tx : Transaction)
    (hdec : decodePaymentHeader hdr = Except.ok d)
    (hval : validatePaymentRequirements d reqs = Except.ok rq)
    (hpay : payloadTxRef d = Except.ok txb)
    (htx : parseTx (b64decode txb) = Except.ok tx)
    (hmem : (checkMembership cfg chain tx.feePayer).1 = true) :
    verifyAndSettle cfg chain parseTx hdr reqs
        = (Except.ok (VSOut.memberPayer tx.feePayer),
           [Event.connCreate, Event.tokenAccountsQuery])
    ∧ Event.verifyTxCall ∉ (verifyAndSettle cfg chain parseTx hdr reqs).2
    ∧ Event.broadcastCall ∉ (verifyAndSettle cfg chain parseTx hdr reqs).2 := by
  have h := verifyAndSettle_member cfg chain parseTx hdr reqs d rq txb tx
    hdec hval hpay htx hmem
  refine ⟨h, ?_, ?_⟩ <;> rw [h] <;> simp

/-- Witness for C2: a member fee payer with a transaction whose
transfer instruction is garbage (wrong program, no signature) is still
granted, with no verify or broadcast event. -/
theorem c2_member_short_circuit_witness :
    verifyAndSettle cfgW (chainOf [{ mint := "MEMB", uiAmount := 9 }] (Except.ok "S"))
        (fun _ => Except.ok { feePayer := "FP", instructions := [], signatures := [],
                              serialized := [] })
        hdrW reqsW
      = (Except.ok (VSOut.memberPayer "FP"), [Event.connCreate, Event.tokenAccountsQuery]) := by
  exact (c2_member_short_circuit cfgW
    (chainOf [{ mint := "MEMB", uiAmount := 9 }] (Except.ok "S"))
    (fun _ => Except.ok { feePayer := "FP", instructions := [], signatures := [],
                          serialized := [] })
    hdrW reqsW
    (JVal.jobj [(ascii ("x402Version"), JVal.jnum 1),
                (ascii ("scheme"), JVal.jstr (ascii ("exact"))),
                (ascii ("network"), JVal.jstr (ascii ("solana-mainnet-beta"))),
                (ascii ("payload"),
                 JVal.jobj [(ascii ("txBase64"), JVal.jstr (b64encode txW.serialized)),
                            (ascii ("reference"), JVal.jstr (ascii ("ref-1")))])])
    reqW (b64encode txW.serialized)
    { feePayer := "FP", instructions := [], signatures := [], serialized := [] }
    (by rfl) (by rfl) (by rfl) (by rfl) (by decide)).1

/-- Helper: when all four decoded fields equal the requirement's and
the fee payer has a present signature, `verifyTransaction` succeeds. -/
theorem verifyTransaction_ok (tx : Transaction) (rq : PaymentRequirement)
    (ix : Instruction) (parsed : ParsedTransferChecked) (sp : SigPair) (bytes : List Nat)
    (hfind : tx.instructions.find? (fun i => i.programId == TOKEN_PROGRAM_ID) = some ix)
    (hdecode : decodeTransferCheckedInstruction ix = Except.ok parsed)
    (hd : parsed.decimals = 6) (ha : parsed.amount = rq.maxAmountRequired)
    (hdest : parsed.destination = rq.payTo) (hm : parsed.mint = rq.asset)
    (hsp : tx.signatures.find? (fun sig => sig.publicKey == tx.feePayer) = some sp)
    (hsig : sp.signature = some bytes) :
    verifyTransaction tx rq = Except.ok tx.feePayer := by
  simp only [verifyTransaction, hfind, hdecode, checkParsedTransfer, hd, ha, hdest, hm,
    hsp, hsig]
  simp

/-- C3.  A non-member whose decoded transfer-checked instruction
matches the requirement exactly in (amount, destination, mint,
decimals = 6) and whose fee payer has a present signature reaches the
broadcast step, and `verifyAndSettle` returns the signature the network
returned (the settled outcome, src/functions/index.js:167-173). -/
theorem c3_exact_match_settles
    (cfg : Config) (chain : Chain) (parseTx : List Nat → Except String Transaction)
    (hdr : List Nat) (reqs : PaymentRequirements) (d : JVal) (rq : PaymentRequirement)
    (txb : List Nat) (tx : Transaction) (ix : Instruction)
    (parsed : ParsedTransferChecked) (sp : SigPair) (bytes : List Nat) (netSig : String)
    (hdec : decodePaymentHeader hdr = Except.ok d)
    (hval : validatePaymentRequirements d reqs = Except.ok rq)
    (hpay : payloadTxRef d = Except.ok txb)
    (htx : parseTx (b64decode txb) = Except.ok tx)
    (hmem : (checkMembership cfg chain tx.feePayer).1 = false)
    (hfind : tx.instructions.find? (fun i => i.programId == TOKEN_PROGRAM_ID) = some ix)
    (hdecode : decodeTransferCheckedInstruction ix = Except.ok parsed)
    (hd : parsed.decimals = 6) (ha : parsed.amount = rq.maxAmountRequired)
    (hdest : parsed.destination = rq.payTo) (hm : parsed.mint = rq.asset)
    (hsp : tx.signatures.find? (fun sig => sig.publicKey == tx.feePayer) = some sp)
    (hsig : sp.signature = some bytes)
    (hbro : chain.sendRawTransaction tx.serialized = Except.ok netSig) :
    verifyAndSettle cfg chain parseTx hdr reqs
      = (Except.ok (VSOut.settledSig netSig),
         [Event.connCreate, Event.tokenAccountsQuery, Event.verifyTxCall,
          Event.broadcastCall]) := by
  rw [verifyAndSettle_nonmember cfg chain parseTx hdr reqs d rq txb tx
    hdec hval hpay htx hmem]
  rw [verifyTransaction_ok tx rq ix parsed sp bytes hfind hdecode hd ha hdest hm hsp hsig]
  simp only [broadcastTransaction, hbro]

/-- Witness for C3: the fixture transaction settles with the network's
signature "SIG42" and the full event trace. -/
theorem c3_exact_match_settles_witness :
    verifyAndSettle cfgW (chainOf [] (Except.ok "SIG42")) parseTxW hdrW reqsW
      = (Except.ok (VSOut.settledSig "SIG42"),
         [Event.connCreate, Event.tokenAccountsQuery, Event.verifyTxCall,
          Event.broadcastCall]) := by
  exact c3_exact_match_settles cfgW (chainOf [] (Except.ok "SIG42")) parseTxW hdrW reqsW
    (JVal.jobj [(ascii ("x402Version"), JVal.jnum 1),
                (ascii ("scheme"), JVal.jstr (ascii ("exact"))),
                (ascii ("network"), JVal.jstr (ascii ("solana-mainnet-beta"))),
                (ascii ("payload"),
                 JVal.jobj [(ascii ("txBase64"), JVal.jstr (b64encode txW.serialized)),
                            (ascii ("reference"), JVal.jstr (ascii ("ref-1")))])])
    reqW (b64encode txW.serialized) txW txIxW
    { amount := 10000, decimals := 6, source := "SRC", mint := "USDC",
      destination := "MERCH", owner := "FP" }
    { publicKey := "FP", signature := some [1, 2] } [1, 2] "SIG42"
    (by rfl) (by rfl) (by rfl) (by rfl) (by decide) (by decide) (by rfl)
    (by decide) (by decide) (by decide) (by decide) (by decide) (by decide) (by rfl)

/-- C4.  For a non-member transaction whose decoded transfer differs
from the requirement in exactly one of decimals, amount, destination or
mint, `verifyTransaction` throws and `verifyAndSettle` rejects with the
distinct reason for that field (src/functions/index.js:101-106), and the
broadcast event never occurs; amount is an exact-equality check, so in
particular an overpaying amount (strictly greater than
`maxAmountRequired`) is rejected the same way. -/
theorem c4_single_field_mismatch_rejects
    (cfg : Config) (chain : Chain) (parseTx : List Nat → Except String Transaction)
    (hdr : List Nat) (reqs : PaymentRequirements) (d : JVal) (rq : PaymentRequirement)
    (txb : List Nat) (tx : Transaction) (ix : Instruction) (parsed : ParsedTransferChecked)
    (hdec : decodePaymentHeader hdr = Except.ok d)
    (hval : validatePaymentRequirements d reqs = Except.ok rq)
    (hpay : payloadTxRef d = Except.ok txb)
    (htx : parseTx (b64decode txb) = Except.ok tx)
    (hmem : (checkMembership cfg chain tx.feePayer).1 = false)
    (hfind : tx.instructions.find? (fun i => i.programId == TOKEN_PROGRAM_ID) = some ix)
    (hdecode : decodeTransferCheckedInstruction ix = Except.ok parsed) :
    (parsed.decimals ≠ 6 → parsed.amount = rq.maxAmountRequired →
      parsed.destination = rq.payTo → parsed.mint = rq.asset →
      verifyAndSettle cfg chain parseTx hdr reqs
        = (Except.error "Token decimals must be 6",
           [Event.connCreate, Event.tokenAccountsQuery, Event.verifyTxCall]))
    ∧ (parsed.decimals = 6 → parsed.amount ≠ rq.maxAmountRequired →
      parsed.destination = rq.payTo → parsed.mint = rq.asset →
      verifyAndSettle cfg chain parseTx hdr reqs
        = (Except.error ("Incorrect amount – expected " ++ Nat.repr rq.maxAmountRequired
            ++ ", got " ++ Nat.repr parsed.amount),
           [Event.connCreate, Event.tokenAccountsQuery, Event.verifyTxCall]))
    ∧ (parsed.decimals = 6 → rq.maxAmountRequired < parsed.amount →
      parsed.destination = rq.payTo → parsed.mint = rq.asset →
      verifyAndSettle cfg chain parseTx hdr reqs
        = (Except.error ("Incorrect amount – expected " ++ Nat.repr rq.maxAmountRequired
            ++ ", got " ++ Nat.repr parsed.amount),
           [Event.connCreate, Event.tokenAccountsQuery, Event.verifyTxCall]))
    ∧ (parsed.decimals = 6 → parsed.amount = rq.maxAmountRequired →
      parsed.destination ≠ rq.payTo → parsed.mint = rq.asset →
      verifyAndSettle cfg chain parseTx hdr reqs
        = (Except.error "Funds not going to the merchant account",
           [Event.connCreate, Event.tokenAccountsQuery, Event.verifyTxCall]))
    ∧ (parsed.decimals = 6 → parsed.amount = rq.maxAmountRequired →
      parsed.destination = rq.payTo → parsed.mint ≠ rq.asset →
      verifyAndSettle cfg chain parseTx hdr reqs
        = (Except.error "Wrong token mint",
           [Event.connCreate, Event.tokenAccountsQuery, Event.verifyTxCall]))
    ∧ Event.broadcastCall
        ∉ ([Event.connCreate, Event.tokenAccountsQuery, Event.verifyTxCall] : List Event) := by
  have base := verifyAndSettle_nonmember cfg chain parseTx hdr reqs d rq txb tx
    hdec hval hpay htx hmem
  refine ⟨?_, ?_, ?_, ?_, ?_, by decide⟩
  · intro h1 h2 h3 h4
    rw [base]
    simp [verifyTransaction, hfind, hdecode, checkParsedTransfer, h1, h2, h3, h4]
  · intro h1 h2 h3 h4
    rw [base]
    simp [verifyTransaction, hfind, hdecode, checkParsedTransfer, h1, h2, h3, h4]
  · intro h1 h2 h3 h4
    have h2x : parsed.amount ≠ rq.maxAmountRequired := (Nat.ne_of_lt h2).symm
    rw [base]
    simp [verifyTransaction, hfind, hdecode, checkParsedTransfer, h1, h2x, h3, h4]
  · intro h1 h2 h3 h4
    rw [base]
    simp [verifyTransaction, hfind, hdecode, checkParsedTransfer, h1, h2, h3, h4]
  · intro h1 h2 h3 h4
    rw [base]
    simp [verifyTransaction, hfind, hdecode, checkParsedTransfer, h1, h2, h3, h4]

/-- Witness for C4: overpaying by one unit (amount 10001, LE bytes
17,39) on the fixture is rejected with the amount reason and the
broadcast-free trace. -/
theorem c4_single_field_mismatch_rejects_witness :
    verifyAndSettle cfgW (chainOf [] (Except.ok "SIG42"))
      (fun _ => Except.ok { txW with instructions :=
        [{ txIxW with data := [12, 17, 39, 0, 0, 0, 0, 0, 0, 6] }] })
      hdrW reqsW
      = (Except.error "Incorrect amount – expected 10000, got 10001",
         [Event.connCreate, Event.tokenAccountsQuery, Event.verifyTxCall]) := by
  exact ((c4_single_field_mismatch_rejects cfgW (chainOf [] (Except.ok "SIG42"))
    (fun _ => Except.ok { txW with instructions :=
      [{ txIxW with data := [12, 17, 39, 0, 0, 0, 0, 0, 0, 6] }] })
    hdrW reqsW
    (JVal.jobj [(ascii ("x402Version"), JVal.jnum 1),
                (ascii ("scheme"), JVal.jstr (ascii ("exact"))),
                (ascii ("network"), JVal.jstr (ascii ("solana-mainnet-beta"))),
                (ascii ("payload"),
                 JVal.jobj [(ascii ("txBase64"), JVal.jstr (b64encode txW.serialized)),
                            (ascii ("reference"), JVal.jstr (ascii ("ref-1")))])])
    reqW (b64encode txW.serialized)
    { txW with instructions := [{ txIxW with data := [12, 17, 39, 0, 0, 0, 0, 0, 0, 6] }] }
    { txIxW with data := [12, 17, 39, 0, 0, 0, 0, 0, 0, 6] }
    { amount := 10001, decimals := 6, source := "SRC", mint := "USDC",
      destination := "MERCH", owner := "FP" }
    (by rfl) (by rfl) (by rfl) (by rfl) (by decide) (by decide) (by rfl)).2.1
    (by decide) (by decide) (by decide) (by decide))

/-- C5.  Garbage input is rejected before any network interaction
(src/functions/index.js:141-146 all precede the `new Connection` at
line 155): a header whose base64/JSON decoding fails, a
version/scheme/network mismatch, and a payload missing `txBase64` or
`reference` each produce their distinct error with an **empty** event
trace — no connection, no token-balance query, no broadcast. -/
theorem c5_reject_before_network
    (cfg : Config) (chain : Chain) (parseTx : List Nat → Except String Transaction)
    (hdr : List Nat) (reqs : PaymentRequirements) :
    (jsonParse (b64decode hdr) = none →
      verifyAndSettle cfg chain parseTx hdr reqs = (Except.error msgDecodeFail, []))
    ∧ (∀ d, decodePaymentHeader hdr = Except.ok d →
      validatePaymentRequirements d reqs = Except.error ValidationFailure.mismatch →
      verifyAndSettle cfg chain parseTx hdr reqs = (Except.error msgUnsupported, []))
    ∧ (∀ d rq, decodePaymentHeader hdr = Except.ok d →
      validatePaymentRequirements d reqs = Except.ok rq →
      payloadTxRef d = Except.error PayloadFailure.missingTx →
      verifyAndSettle cfg chain parseTx hdr reqs
        = (Except.error "Missing txBase64 in payload", []))
    ∧ (∀ d rq, decodePaymentHeader hdr = Except.ok d →
      validatePaymentRequirements d reqs = Except.ok rq →
      payloadTxRef d = Except.error PayloadFailure.missingRef →
      verifyAndSettle cfg chain parseTx hdr reqs
        = (Except.error "Missing reference in payload", [])) := by
  refine ⟨?_, ?_, ?_, ?_⟩
  · intro h
    simp only [verifyAndSettle, decodePaymentHeader, h]
  · intro d hdec hval
    simp only [verifyAndSettle, hdec, hval, validationMsg]
  · intro d rq hdec hval hpay
    simp only [verifyAndSettle, hdec, hval, hpay, payloadMsg]
  · intro d rq hdec hval hpay
    simp only [verifyAndSettle, hdec, hval, hpay, payloadMsg]

/-- Witness for C5: a non-base64/non-JSON header, a version-2 header, a
payload without `txBase64`, and a payload without `reference` are each
rejected with the corresponding reason and zero network events. -/
theorem c5_reject_before_network_witness :
    verifyAndSettle cfgW (chainOf [] (Except.ok "S")) parseTxW (ascii ("!!!")) reqsW
        = (Except.error msgDecodeFail, [])
    ∧ verifyAndSettle cfgW (chainOf [] (Except.ok "S")) parseTxW
        (b64encode (ascii ("\x7b\"x402Version\":2\x7d"))) reqsW
        = (Except.error msgUnsupported, [])
    ∧ verifyAndSettle cfgW (chainOf [] (Except.ok "S")) parseTxW
        (b64encode (ascii ("\x7b\"x402Version\":1,\"scheme\":\"exact\",\"network\":\"solana-mainnet-beta\",\"payload\":\x7b\"reference\":\"r\"\x7d\x7d")))
        reqsW
        = (Except.error "Missing txBase64 in payload", [])
    ∧ verifyAndSettle cfgW (chainOf [] (Except.ok "S")) parseTxW
        (b64encode (ascii ("\x7b\"x402Version\":1,\"scheme\":\"exact\",\"network\":\"solana-mainnet-beta\",\"payload\":\x7b\"txBase64\":\"AQ\"\x7d\x7d")))
        reqsW
        = (Except.error "Missing reference in payload", []) := by
  refine ⟨?_, ?_, ?_, ?_⟩
  · exact (c5_reject_before_network cfgW (chainOf [] (Except.ok "S")) parseTxW
      (ascii ("!!!")) reqsW).1 (by rfl)
  · exact (c5_reject_before_network cfgW (chainOf [] (Except.ok "S")) parseTxW
      (b64encode (ascii ("\x7b\"x402Version\":2\x7d"))) reqsW).2.1
      (JVal.jobj [(ascii ("x402Version"), JVal.jnum 2)]) (by rfl) (by rfl)
  · exact (c5_reject_before_network cfgW (chainOf [] (Except.ok "S")) parseTxW
      (b64encode (ascii ("\x7b\"x402Version\":1,\"scheme\":\"exact\",\"network\":\"solana-mainnet-beta\",\"payload\":\x7b\"reference\":\"r\"\x7d\x7d")))
      reqsW).2.2.1
      (JVal.jobj [(ascii ("x402Version"), JVal.jnum 1),
                  (ascii ("scheme"), JVal.jstr (ascii ("exact"))),
                  (ascii ("network"), JVal.jstr (ascii ("solana-mainnet-beta"))),
                  (ascii ("payload"), JVal.jobj [(ascii ("reference"), JVal.jstr (ascii ("r")))])])
      reqW (by rfl) (by rfl) (by rfl)
  · exact (c5_reject_before_network cfgW (chainOf [] (Except.ok "S")) parseTxW
      (b64encode (ascii ("\x7b\"x402Version\":1,\"scheme\":\"exact\",\"network\":\"solana-mainnet-beta\",\"payload\":\x7b\"txBase64\":\"AQ\"\x7d\x7d")))
      reqsW).2.2.2
      (JVal.jobj [(ascii ("x402Version"), JVal.jnum 1),
                  (ascii ("scheme"), JVal.jstr (ascii ("exact"))),
                  (ascii ("network"), JVal.jstr (ascii ("solana-mainnet-beta"))),
                  (ascii ("payload"), JVal.jobj [(ascii ("txBase64"), JVal.jstr (ascii ("AQ")))])])
      reqW (by rfl) (by rfl) (by rfl)

/-- C9.  A `GET /weather` request whose fee payer holds a
membership-token balance above the threshold is answered `200` with the
weather payload and an `X-PAYMENT-RESPONSE` receipt, and the broadcast
service receives zero calls, for an arbitrary deserializable
transaction.  In the index.js handler the receipt carries the fee
payer's public key in `txHash` (the member marker of that revision); in
the part_003 handler the receipt is the explicit member-access receipt. -/
theorem c9_weather_member_access
    (cfg : Config) (chain : Chain) (parseTx : List Nat → Except String Transaction)
    (now : String) (hdr : List Nat) (d : JVal) (txb : List Nat) (tx : Transaction)
    (rq1 rq2 : PaymentRequirement) (acct : TokenAccount)
    (hdec : decodePaymentHeader hdr = Except.ok d)
    (hval1 : validatePaymentRequirements d (weatherPaymentRequirements cfg) = Except.ok rq1)
    (hval2 : validatePaymentRequirements d (weatherPaymentRequirementsV2 cfg) = Except.ok rq2)
    (hpay : payloadTxRef d = Except.ok txb)
    (htx : parseTx (b64decode txb) = Except.ok tx)
    (hacct : (chain.getParsedTokenAccountsByOwner tx.feePayer).find?
        (fun a => a.mint == cfg.memberspl) = some acct)
    (hbal : acct.uiAmount > cfg.membersplreq) :
    weather cfg chain parseTx now
        { method := "GET", path := "/weather", xPayment := some hdr }
      = ({ status := 200, body := RespBody.weatherJson 72,
           paymentResponse := some { txHash := tx.feePayer, settledAt := now } },
         [Event.connCreate, Event.tokenAccountsQuery])
    ∧ weatherV2 cfg chain parseTx now
        { method := "GET", path := "/weather", xPayment := some hdr }
      = (some { status := 200, body := RespBody.weatherJson 72,
                paymentResponse := some (ReceiptV2.member (some tx.feePayer)
                  (some "Member free access granted") now) },
         [Event.connCreate, Event.tokenAccountsQuery])
    ∧ Event.broadcastCall ∉ ([Event.connCreate, Event.tokenAccountsQuery] : List Event) := by
  have hmem1 : (checkMembership cfg chain tx.feePayer).1 = true := by
    simp only [checkMembership, hacct]
    simp [hbal]
  have hmem2 : (checkMembershipV2 cfg chain tx.feePayer).1 = true := by
    simp only [checkMembershipV2, hacct]
    simp [le_of_lt hbal]
  have hm2a : (checkMembership cfg chain tx.feePayer).2 = [Event.tokenAccountsQuery] := rfl
  have hm2b : (checkMembershipV2 cfg chain tx.feePayer).2 = [Event.tokenAccountsQuery] := rfl
  refine ⟨?_, ?_, by decide⟩
  · have hvs := verifyAndSettle_member cfg chain parseTx hdr
      (weatherPaymentRequirements cfg) d rq1 txb tx hdec hval1 hpay htx hmem1
    simp only [weather, hvs]
    simp [vsOutTruthy, vsOutStr]
  · have hvs2 : verifyAndSettleV2 cfg chain parseTx hdr (weatherPaymentRequirementsV2 cfg)
        = (Except.ok { success := true, isMemberAccess := true,
                       feePayer := some tx.feePayer,
                       message := some "Member free access granted" },
           [Event.connCreate, Event.tokenAccountsQuery]) := by
      simp only [verifyAndSettleV2, hdec, hval2, hpay, htx, hmem2, hm2b]
      simp
    simp only [weatherV2, hvs2]
    simp

/-- Witness for C9: a payer holding balance 9 over threshold 5, with a
garbage unsigned transaction, gets `200` and a member receipt from both
handler revisions, with no broadcast event. -/
theorem c9_weather_member_access_witness :
    weather cfgW (chainOf [{ mint := "MEMB", uiAmount := 9 }] (Except.ok "S"))
        (fun _ => Except.ok { feePayer := "FP", instructions := [], signatures := [],
                              serialized := [] }) "T0"
        { method := "GET", path := "/weather", xPayment := some hdrW }
      = ({ status := 200, body := RespBody.weatherJson 72,
           paymentResponse := some { txHash := "FP", settledAt := "T0" } },
         [Event.connCreate, Event.tokenAccountsQuery]) := by
  exact (c9_weather_member_access cfgW
    (chainOf [{ mint := "MEMB", uiAmount := 9 }] (Except.ok "S"))
    (fun _ => Except.ok { feePayer := "FP", instructions := [], signatures := [],
                          serialized := [] }) "T0" hdrW
    (JVal.jobj [(ascii ("x402Version"), JVal.jnum 1),
                (ascii ("scheme"), JVal.jstr (ascii ("exact"))),
                (ascii ("network"), JVal.jstr (ascii ("solana-mainnet-beta"))),
                (ascii ("payload"),
                 JVal.jobj [(ascii ("txBase64"), JVal.jstr (b64encode txW.serialized)),
                            (ascii ("reference"), JVal.jstr (ascii ("ref-1")))])])
    (b64encode txW.serialized)
    { feePayer := "FP", instructions := [], signatures := [], serialized := [] }
    { reqW with payTo := cfgW.merchanttokenacc, asset := USDC_MINT,
                description := "Weather API per call (0.01 USDC)" }
    { reqW with payTo := cfgW.merchanttokenacc, asset := USDC_MINT,
                description := "Weather API per call (0.01 USDC). Member free access available." }
    { mint := "MEMB", uiAmount := 9 }
    (by rfl) (by rfl) (by rfl) (by rfl) (by rfl) (by decide) (by decide)).1

/-- Helper: a settled signature returned by `verifyAndSettle` comes
from the chain's `sendRawTransaction`. -/
theorem verifyAndSettle_settled_from_chain
    (cfg : Config) (chain : Chain) (parseTx : List Nat → Except String Transaction)
    (hdr : List Nat) (reqs : PaymentRequirements) (s : String)
    (h : (verifyAndSettle cfg chain parseTx hdr reqs).1
          = Except.ok (VSOut.settledSig s)) :
    ∃ raw, chain.sendRawTransaction raw = Except.ok s := by
  rcases hdp : decodePaymentHeader hdr with e | d
  · have hv : verifyAndSettle cfg chain parseTx hdr reqs = (Except.error e, []) := by
      simp only [verifyAndSettle, hdp]
    rw [hv] at h
    simp at h
  rcases hvv : validatePaymentRequirements d reqs with f | rq
  · have hv : verifyAndSettle cfg chain parseTx hdr reqs
        = (Except.error (validationMsg f), []) := by
      simp only [verifyAndSettle, hdp, hvv]
    rw [hv] at h
    simp at h
  rcases hpp : payloadTxRef d with f | txb
  · have hv : verifyAndSettle cfg chain parseTx hdr reqs
        = (Except.error (payloadMsg f), []) := by
      simp only [verifyAndSettle, hdp, hvv, hpp]
    rw [hv] at h
    simp at h
  rcases htt : parseTx (b64decode txb) with e | tx
  · have hv : verifyAndSettle cfg chain parseTx hdr reqs = (Except.error e, []) := by
      simp only [verifyAndSettle, hdp, hvv, hpp, htt]
    rw [hv] at h
    simp at h
  rcases hmm : (checkMembership cfg chain tx.feePayer).1
  · have base := verifyAndSettle_nonmember cfg chain parseTx hdr reqs d rq txb tx
      hdp hvv hpp htt hmm
    rcases hvt : verifyTransaction tx rq with e | fp
    · rw [base] at h
      simp only [hvt] at h
      simp at h
    rcases hbb : broadcastTransaction chain tx with e | sig
    · rw [base] at h
      simp only [hvt, hbb] at h
      simp at h
    · rw [base] at h
      simp only [hvt, hbb] at h
      simp at h
      unfold broadcastTransaction at hbb
      rw [h] at hbb
      exact ⟨tx.serialized, hbb⟩
  · have hv := verifyAndSettle_member cfg chain parseTx hdr reqs d rq txb tx
      hdp hvv hpp htt hmm
    rw [hv] at h
    simp at h

/-- C10.  In the index.js weather handler the 500 "Settlement failed"
branch is unreachable: a returned `verifyAndSettle` result is a
`PublicKey` (always truthy) on the member path or the network's
signature string on the settled path, which is non-empty (a base58
signature; the hypothesis records this property of the chain oracle) —
so every request is answered with 204, 404, 402 or 200. -/
theorem c10_settlement_failed_unreachable
    (cfg : Config) (chain : Chain) (parseTx : List Nat → Except String Transaction)
    (now : String) (req : HttpRequest)
    (hsig : ∀ raw s, chain.sendRawTransaction raw = Except.ok s → s ≠ "") :
    (weather cfg chain parseTx now req).1.status = 204
    ∨ (weather cfg chain parseTx now req).1.status = 404
    ∨ (weather cfg chain parseTx now req).1.status = 402
    ∨ (weather cfg chain parseTx now req).1.status = 200 := by
  unfold weather
  by_cases h1 : req.method = "OPTIONS"
  · simp [h1]
  by_cases h2 : req.method ≠ "GET" ∨ (req.path ≠ "/" ∧ req.path ≠ "/weather")
  · simp [h1, h2]
  rcases hx : req.xPayment with _ | hdr
  · simp [h1, h2, hx]
  rcases hv : verifyAndSettle cfg chain parseTx hdr (weatherPaymentRequirements cfg)
    with ⟨res, events⟩
  rcases res with e | out
  · simp [h1, h2, hx, hv]
  rcases out with pk | s
  · simp [h1, h2, hx, hv, vsOutTruthy]
  · have hs : s ≠ "" := by
      obtain ⟨raw, hraw⟩ := verifyAndSettle_settled_from_chain cfg chain parseTx hdr
        (weatherPaymentRequirements cfg) s (by rw [hv])
      exact hsig raw s hraw
    simp [h1, h2, hx, hv, vsOutTruthy, hs]

/-- Witness for C10 on a settled request: the fixture request is
answered 200 (in particular not 500). -/
theorem c10_settlement_failed_unreachable_witness :
    (weather cfgW (chainOf [] (Except.ok "SIG42")) parseTxW "T0"
        { method := "GET", path := "/weather", xPayment := some hdrW }).1.status = 204
    ∨ (weather cfgW (chainOf [] (Except.ok "SIG42")) parseTxW "T0"
        { method := "GET", path := "/weather", xPayment := some hdrW }).1.status = 404
    ∨ (weather cfgW (chainOf [] (Except.ok "SIG42")) parseTxW "T0"
        { method := "GET", path := "/weather", xPayment := some hdrW }).1.status = 402
    ∨ (weather cfgW (chainOf [] (Except.ok "SIG42")) parseTxW "T0"
        { method := "GET", path := "/weather", xPayment := some hdrW }).1.status = 200 := by
  exact c10_settlement_failed_unreachable cfgW (chainOf [] (Except.ok "SIG42")) parseTxW "T0"
    { method := "GET", path := "/weather", xPayment := some hdrW }
    (by intro raw s h; simp only [chainOf] at h; injection h with h2; rw [← h2]; decide)

end X402
